import Mathlib

/-!
Verification of the NeoCode connection-session core against its design
document (spec.md).  The definitions below are a shallow embedding of
`src/gui/src/forms/AddModelForm.tsx` (the session manager, normalizer and
credential store) together with the relevant constants of
`src/core/config/default.ts`.  External collaborators — the browser
`fetch`, `JSON.parse`/`JSON.stringify`, `localStorage`, `setTimeout` — are
modelled at their interface: a fetch attempt is parameterised by its
outcome, the storage slot holds either a value that parses back or
garbage, and a pending timeout is an owned token that can be cleared.

React closure semantics are embedded explicitly: `fetchModelsWithCredentials`
is recreated on every render and closes over that render's value of the
`useStoredCredentials` constant, so the flag an in-flight attempt reads is
the value captured when the closure was created — passed below as an
explicit parameter — while `setUseStoredCredentials` writes only the state
later renders see.  In particular the mount effect invokes the first
render's closure, whose captured flag is the initial `false`.
-/

namespace NeoCode

/-- Provider family tag used by the design document (section 3). -/
inductive ProviderFamily
  | LocalInference
  | GenericCompatible
deriving DecidableEq, Repr

/-- From `src/core/config/default.ts`: the bundled default model entry uses
provider `"ollama"` at `apiBase "http://localhost:11434"`. -/
def defaultLocalApiBase : String := "http://localhost:11434"

/-- Family-name token of the default local provider in `default.ts`. -/
def familyNameToken : String := "ollama"

/-- Fixed local default port token, taken from `defaultLocalApiBase`. -/
def localDefaultPortToken : String := "11434"

/-- Case-sensitive substring containment on character lists. -/
def containsSub (needle : List Char) : List Char → Bool
  | [] => needle.isEmpty
  | c :: rest => needle.isPrefixOf (c :: rest) || containsSub needle rest

/-- Case-insensitive substring test on strings. -/
def containsToken (url tok : String) : Bool :=
  containsSub (tok.data.map Char.toLower) (url.data.map Char.toLower)

/-- Modelled from the spec (section 4.1), for comparison with the code:
classify an endpoint as LocalInference iff the URL contains the fixed local
default port token or the family-name token, case-insensitively; else
GenericCompatible.  No function of the source performs this classification;
this definition follows the design document's words. -/
def classifyEndpointSpec (url : String) : ProviderFamily :=
  if containsToken url localDefaultPortToken || containsToken url familyNameToken then
    ProviderFamily.LocalInference
  else
    ProviderFamily.GenericCompatible

/-- Classification the code actually applies.  `fetchModelsWithCredentials`
in `AddModelForm.tsx` has a single, unconditional discovery path (`/models`
with a Bearer header) and no branch on the endpoint, so every endpoint
receives the GenericCompatible treatment. -/
def classifyEndpoint (_url : String) : ProviderFamily :=
  ProviderFamily.GenericCompatible

/-- Credentials persisted by the form (interface `StoredCredentials`). -/
structure StoredCredentials where
  apiBase : String
  apiKey : String
deriving DecidableEq, Repr

/-- One raw `localStorage` entry under the key `"neocode-api-credentials"`:
either a string that `JSON.parse` maps to credentials, or garbage that
fails to parse.  `JSON.stringify` followed by `JSON.parse` is the identity
on such records, so a freshly saved entry is `valid`. -/
inductive StoredEntry
  | valid (c : StoredCredentials)
  | corrupt
deriving DecidableEq, Repr

/-- The `localStorage` slot: `none` when the key is absent. -/
def Storage := Option StoredEntry
deriving DecidableEq, Repr

/-- `getStoredCredentials` (AddModelForm.tsx lines 38-46): the try/catch
turns absence or a parse failure into `null`, never throwing. -/
def getStoredCredentials : Storage → Option StoredCredentials
  | some (StoredEntry.valid c) => some c
  | some StoredEntry.corrupt => none
  | none => none

/-- `storeCredentials` (lines 48-58): overwrites the slot with the
JSON-encoded pair. -/
def storeCredentials (apiBase apiKey : String) (_s : Storage) : Storage :=
  some (StoredEntry.valid ⟨apiBase, apiKey⟩)

/-- `clearStoredCredentials` (lines 60-66): removes the entry. -/
def clearStoredCredentials (_s : Storage) : Storage :=
  (none : Storage)

/-- Canonical model descriptor (interface `Model`, lines 15-21). -/
structure Model where
  id : String
  title : String
  object : Option String
  created : Option Int
  owned_by : Option String
deriving DecidableEq, Repr

/-- One element of the provider's `data` array, with the fields the
normalizer reads. -/
structure RawModel where
  id : String
  object : Option String
  created : Option Int
  owned_by : Option String
deriving DecidableEq, Repr

/-- The per-element normalization (lines 146-152): `id` and `title` both
come from the element's `id`; the remaining fields are copied. -/
def toModel (m : RawModel) : Model :=
  { id := m.id, title := m.id, object := m.object
  , created := m.created, owned_by := m.owned_by }

/-- The `data` field of the parsed payload as the code inspects it
(line 144, `data.data && Array.isArray(data.data)`): absent, an array, or
present but not an array (with its JavaScript truthiness). -/
inductive DataField
  | absent
  | arr (elems : List RawModel)
  | other (truthy : Bool)
deriving DecidableEq, Repr

/-- Result of `response.json()`: a parsed body or a rejection. -/
inductive BodyResult
  | ok (d : DataField)
  | parseError (msg : String)
deriving DecidableEq, Repr

/-- The resolved HTTP response as the code consumes it. -/
structure HttpResponse where
  ok : Bool
  status : Nat
  statusText : String
  body : BodyResult
deriving DecidableEq, Repr

/-- Outcome of the single discovery fetch: the promise rejects with an
error message, or resolves to a response. -/
inductive FetchOutcome
  | networkError (msg : String)
  | response (r : HttpResponse)
deriving DecidableEq, Repr

/-- Discovery request as assembled at lines 113-124. -/
structure Request where
  url : String
  authorization : Option String
  contentType : String
deriving DecidableEq, Repr

/-- Model of the JavaScript `apiBase.endsWith("/")` test at line 114: the
last character of the string is a slash. -/
def endsWithSlash (s : String) : Bool :=
  s.data.getLast? == some '/'

/-- URL construction (lines 114-116): suffix `models`, inserting a slash
only when the base does not already end with one. -/
def buildModelsUrl (apiBase : String) : String :=
  if endsWithSlash apiBase then apiBase ++ "models" else apiBase ++ "/models"

/-- Request construction (lines 118-124): GET `<base>/models` with a
Bearer authorization header and JSON content type, for every endpoint. -/
def buildRequest (apiBase apiKey : String) : Request :=
  { url := buildModelsUrl apiBase
  , authorization := some ("Bearer " ++ apiKey)
  , contentType := "application/json" }

/-- The two-step flow (line 69): `"connect"` or `"selectModel"`. -/
inductive Step
  | connect
  | selectModel
deriving DecidableEq, Repr

/-- The component state of `AddModelForm`: the React state hooks
(lines 69-78), the `localStorage` slot the helpers act on, and the two
react-hook-form field values (`apiBase`, `apiKey`).  An `undefined` form
value behaves exactly like the empty string in every guard that reads it,
so both are modelled as `""`.  `successTimeoutRef = some d` is a pending
timeout of `d` milliseconds; `none` is a cleared slot. -/
structure FormState where
  step : Step
  isConnecting : Bool
  availableModels : List Model
  selectedCustomModel : Option Model
  connectionError : Option String
  showSuccessMessage : Bool
  useStoredCredentials : Bool
  successTimeoutRef : Option Nat
  storage : Storage
  formApiBase : String
  formApiKey : String
deriving DecidableEq, Repr

/-- Delay of the one-shot success indicator (line 170). -/
def successMessageDelayMs : Nat := 3000

/-- Validation message of the guard at lines 104-107. -/
def validationMsg : String := "Please enter both API base URL and API key"

/-- Message of the credential-invalidation branch at lines 132-134. -/
def invalidCredsMsg : String :=
  "Stored credentials are invalid. Please re-enter your details."

/-- Message thrown for a malformed payload at line 183. -/
def malformedMsg : String := "Invalid response format: expected data array"

/-- Generic message thrown for an HTTP failure on a manual attempt
(lines 137-139). -/
def httpFailureMsg (status : Nat) (statusText : String) : String :=
  "Failed to fetch models: " ++ toString status ++ " " ++ statusText

/-- The request `fetchModelsWithCredentials` issues, or `none` when the
non-empty guard at lines 104-107 rejects the call before any fetch. -/
def fetchIssues (apiBase apiKey : String) : Option Request :=
  if apiBase.isEmpty || apiKey.isEmpty then none else some (buildRequest apiBase apiKey)

/-- State observable while the fetch is outstanding: after
`setIsConnecting(true)` and `setConnectionError(null)` (lines 109-110),
before the awaited response is handled. -/
def connectingState (s : FormState) : FormState :=
  { s with isConnecting := true, connectionError := none }

/-- The try/catch body of `fetchModelsWithCredentials` (lines 112-189)
applied to the already-Connecting state, without the `finally` clause:
the invalidation branch on a non-ok response, the generic
thrown-and-caught errors, and the success path that normalizes the
catalog, arms the indicator, persists credentials and preselects the
first model.  `useStoredCredentials` is the value of the flag captured by
the render that created the running closure: the reads at lines 128, 158
and 174 see this captured constant, not the live state, because
`setUseStoredCredentials` only changes what later renders capture.  The
branches' state writes (clearing the store, resetting the flag, arming
the indicator) do land in state. -/
def resolveAttempt (s : FormState) (useStoredCredentials : Bool) (apiBase apiKey : String) :
    FetchOutcome → FormState
  | FetchOutcome.networkError msg => { s with connectionError := some msg }
  | FetchOutcome.response r =>
    if !r.ok then
      if useStoredCredentials then
        { s with storage := clearStoredCredentials s.storage
               , useStoredCredentials := false
               , step := Step.connect
               , connectionError := some invalidCredsMsg }
      else
        { s with connectionError := some (httpFailureMsg r.status r.statusText) }
    else
      match r.body with
      | BodyResult.parseError msg => { s with connectionError := some msg }
      | BodyResult.ok DataField.absent => { s with connectionError := some malformedMsg }
      | BodyResult.ok (DataField.other _) => { s with connectionError := some malformedMsg }
      | BodyResult.ok (DataField.arr elems) =>
        let models := elems.map toModel
        let s1 := { s with availableModels := models, step := Step.selectModel }
        let s2 :=
          if !useStoredCredentials then
            { s1 with showSuccessMessage := true
                    , successTimeoutRef := some successMessageDelayMs }
          else s1
        let s3 :=
          if !useStoredCredentials then
            { s2 with storage := storeCredentials apiBase apiKey s2.storage }
          else s2
        match models with
        | m :: _ => { s3 with selectedCustomModel := some m }
        | [] => s3

/-- `fetchModelsWithCredentials` (lines 103-193) as a state transformer,
with the outcome of the single fetch and the closure's captured
`useStoredCredentials` value supplied as parameters: the non-empty guard,
then the try/catch body, then the `finally` clause that always resets
`isConnecting`. -/
def runFetch (s : FormState) (useStoredCredentials : Bool) (apiBase apiKey : String)
    (outcome : FetchOutcome) : FormState :=
  if apiBase.isEmpty || apiKey.isEmpty then
    { s with connectionError := some validationMsg }
  else
    { resolveAttempt (connectingState s) useStoredCredentials apiBase apiKey outcome with
        isConnecting := false }

/-- `fetchModels` (lines 195-201): the click handler queues
`setUseStoredCredentials(false)` — a state write — and then awaits the
current render's `fetchModelsWithCredentials`, whose captured flag is the
pre-click value `s.useStoredCredentials`. -/
def fetchModels (s : FormState) (outcome : FetchOutcome) : FormState :=
  runFetch { s with useStoredCredentials := false } s.useStoredCredentials
    s.formApiBase s.formApiKey outcome

/-- `isConnectDisabled` (lines 203-210). -/
def isConnectDisabled (s : FormState) : Bool :=
  s.formApiBase.isEmpty || s.formApiKey.isEmpty || s.isConnecting

/-- React state before any effect runs (lines 69-78): connect step, no
models, no selection, nothing pending. -/
def initialFormState (st : Storage) : FormState :=
  { step := Step.connect, isConnecting := false, availableModels := []
  , selectedCustomModel := none, connectionError := none
  , showSuccessMessage := false, useStoredCredentials := false
  , successTimeoutRef := none, storage := st
  , formApiBase := "", formApiKey := "" }

/-- The mount effect (lines 81-92): when stored credentials exist and both
fields are truthy (non-empty), populate the form, mark the attempt as
stored-credentials, and return the pair the auto fetch is issued with;
otherwise do nothing. -/
def mountEffect (s : FormState) : FormState × Option (String × String) :=
  match getStoredCredentials s.storage with
  | some c =>
    if c.apiBase.isEmpty || c.apiKey.isEmpty then (s, none)
    else
      ({ s with formApiBase := c.apiBase, formApiKey := c.apiKey
              , useStoredCredentials := true }
      , some (c.apiBase, c.apiKey))
  | none => (s, none)

/-- Component state once mount and the auto-reconnect attempt (if issued)
have settled, the attempt's fetch outcome being `auto`.  The mount effect
invokes the first render's closure, whose captured flag is the initial
`false`; the effect's `setUseStoredCredentials(true)` is visible only to
later renders' state, never to this in-flight attempt. -/
def afterMount (st : Storage) (auto : FetchOutcome) : FormState :=
  match mountEffect (initialFormState st) with
  | (s1, some (b, k)) => runFetch s1 false b k auto
  | (s1, none) => s1

/-- The success timer firing (lines 167-170): hide the message and drop
the handle.  Only a pending (uncleared) timeout can fire. -/
def timerFire (s : FormState) : FormState :=
  { s with showSuccessMessage := false, successTimeoutRef := none }

/-- The unmount cleanup effect (lines 95-101): clear any pending timeout. -/
def unmountCleanup (s : FormState) : FormState :=
  { s with successTimeoutRef := none }

/-- `goBackToConnect` (lines 255-275): cancel the timer, reset the flow to
the connect step, and repopulate the form from the store if present. -/
def goBackToConnect (s : FormState) : FormState :=
  let s1 := { s with successTimeoutRef := none
                   , step := Step.connect
                   , availableModels := []
                   , selectedCustomModel := none
                   , connectionError := none
                   , showSuccessMessage := false
                   , useStoredCredentials := false }
  match getStoredCredentials s1.storage with
  | some c => { s1 with formApiBase := c.apiBase, formApiKey := c.apiKey }
  | none => s1

/-- The listbox callback (lines 418-426): look for the first available
model matching the chosen value by id or title; update the selection only
on a match. -/
def selectModelEvent (s : FormState) (val : Model) : FormState :=
  match s.availableModels.find? (fun m => m.id == val.id || m.title == val.title) with
  | some m => { s with selectedCustomModel := some m }
  | none => s

/-- The Clear button of the saved-credentials banner (lines 304-314). -/
def clearCredentialsClick (s : FormState) : FormState :=
  { s with storage := clearStoredCredentials s.storage
         , formApiBase := "", formApiKey := "" }

/-- Raw element of the design document's GenericCompatible example. -/
def gpt4Raw : RawModel :=
  { id := "gpt-4", object := some "model"
  , created := some 1700000000, owned_by := some "openai" }

/-- Its expected normalization. -/
def gpt4Model : Model :=
  { id := "gpt-4", title := "gpt-4", object := some "model"
  , created := some 1700000000, owned_by := some "openai" }

/-- Two catalog members sharing a title but not an id. -/
def dupA : Model := { id := "a", title := "t", object := none, created := none, owned_by := none }

/-- Second member with the shared title. -/
def dupB : Model := { id := "b", title := "t", object := none, created := none, owned_by := none }

/-- A Connected-step state whose catalog holds `dupA` then `dupB`. -/
def dupState : FormState :=
  { initialFormState none with
      step := Step.selectModel
    , availableModels := [dupA, dupB]
    , selectedCustomModel := some dupB }

end NeoCode

namespace NeoCode

/-- C8: the credential store satisfies the stated algebra — saving then
loading returns the saved pair, clearing then loading yields none, loading
is total with absence and parse failure both yielding none, and clearing
an absent entry is an idempotent no-op. -/
theorem credential_store_algebra :
    (∀ (b k : String) (st : Storage),
        getStoredCredentials (storeCredentials b k st) = some ⟨b, k⟩) ∧
    (∀ st : Storage, getStoredCredentials (clearStoredCredentials st) = none) ∧
    (getStoredCredentials (none : Storage) = none ∧
        getStoredCredentials (some StoredEntry.corrupt) = none) ∧
    (clearStoredCredentials (none : Storage) = (none : Storage) ∧
        ∀ st : Storage,
          clearStoredCredentials (clearStoredCredentials st) = clearStoredCredentials st) :=
  ⟨fun _ _ _ => rfl, fun _ => rfl, ⟨rfl, rfl⟩, ⟨rfl, fun _ => rfl⟩⟩

/-- C5 counterexample: the endpoint `http://localhost:11434` contains the
local default port token, so the claim requires a fetch of
`<endpoint>/api/tags` with no Authorization header; the code instead
requests `<endpoint>/models` with a Bearer header. -/
theorem local_endpoint_request_counterexample :
    classifyEndpointSpec "http://localhost:11434" = ProviderFamily.LocalInference ∧
    buildRequest "http://localhost:11434" "k" =
      { url := "http://localhost:11434/models"
      , authorization := some "Bearer k"
      , contentType := "application/json" } ∧
    (buildRequest "http://localhost:11434" "k").url ≠ "http://localhost:11434/api/tags" ∧
    (buildRequest "http://localhost:11434" "k").authorization ≠ none :=
  ⟨by decide, by decide, by decide, by decide⟩

/-- C5 amended: every connection attempt's discovery request suffixes
`/models` onto the endpoint, inserting a slash only when the base lacks a
trailing one (no doubled slash), and always carries
`Authorization: Bearer <key>` and `Content-Type: application/json`; there
is no family-specific `/api/tags` path in the code. -/
theorem discovery_request_construction :
    ∀ apiBase apiKey : String,
      (endsWithSlash apiBase = true →
        (buildRequest apiBase apiKey).url = apiBase ++ "models") ∧
      (endsWithSlash apiBase = false →
        (buildRequest apiBase apiKey).url = apiBase ++ "/models") ∧
      buildModelsUrl (apiBase ++ "/") = apiBase ++ "/models" ∧
      (buildRequest apiBase apiKey).authorization = some ("Bearer " ++ apiKey) ∧
      (buildRequest apiBase apiKey).contentType = "application/json" := by
  intro b k
  refine ⟨fun h => ?_, fun h => ?_, ?_, rfl, rfl⟩
  · simp [buildRequest, buildModelsUrl, h]
  · simp [buildRequest, buildModelsUrl, h]
  · have hslash : endsWithSlash (b ++ "/") = true := by
      simp [endsWithSlash, String.data_append]
    simp [buildModelsUrl, hslash]
    apply String.ext
    simp [String.data_append]

/-- Witness for the amended C5 at concrete endpoints with and without a
trailing slash. -/
theorem discovery_request_construction_witness :
    (buildRequest "http://a/" "k").url = "http://a/" ++ "models" ∧
    (buildRequest "http://a" "k").url = "http://a" ++ "/models" :=
  ⟨(discovery_request_construction "http://a/" "k").1 (by decide),
   (discovery_request_construction "http://a" "k").2.1 (by decide)⟩

/-- C6 counterexample: `http://x-OLLAMA/` contains the family-name token
case-insensitively, so the claim requires LocalInference; the code has no
classifier and gives this endpoint the GenericCompatible treatment
(`/models` path with a Bearer header). -/
theorem classifier_marker_counterexample :
    containsToken "http://x-OLLAMA/" familyNameToken = true ∧
    classifyEndpointSpec "http://x-OLLAMA/" = ProviderFamily.LocalInference ∧
    classifyEndpoint "http://x-OLLAMA/" = ProviderFamily.GenericCompatible ∧
    (buildRequest "http://x-OLLAMA/" "k").url = "http://x-OLLAMA/models" ∧
    (buildRequest "http://x-OLLAMA/" "k").authorization = some "Bearer k" :=
  ⟨by decide, by decide, rfl, by decide, by decide⟩

/-- C2: a GenericCompatible payload whose `data` field is an array is
normalized elementwise — id from the element's id, title equal to that id,
and the object, created and owned_by fields copied (the spec's
sourceObjectType, createdAtEpochSeconds and owner) — preserving provider
order, and the first element becomes the default selection. -/
theorem generic_payload_normalization :
    ∀ (s : FormState) (captured : Bool) (apiBase apiKey : String)
      (r : HttpResponse) (elems : List RawModel),
      apiBase.isEmpty = false → apiKey.isEmpty = false →
      r.ok = true → r.body = BodyResult.ok (DataField.arr elems) →
      (runFetch s captured apiBase apiKey (FetchOutcome.response r)).availableModels
          = elems.map toModel ∧
      (∀ m : RawModel, toModel m =
          { id := m.id, title := m.id, object := m.object
          , created := m.created, owned_by := m.owned_by }) ∧
      (∀ (e : RawModel) (es : List RawModel), elems = e :: es →
        (runFetch s captured apiBase apiKey (FetchOutcome.response r)).selectedCustomModel
            = some (toModel e)) := by
  intro s c b k r elems hb hk hok hbody
  refine ⟨?_, fun m => rfl, ?_⟩
  · cases c <;> cases elems <;>
      simp [runFetch, hb, hk, resolveAttempt, connectingState, hok, hbody]
  · intro e es helems
    subst helems
    cases c <;>
      simp [runFetch, hb, hk, resolveAttempt, connectingState, hok, hbody]

/-- Witness for C2 at the design document's concrete gpt-4 payload. -/
theorem generic_payload_normalization_witness :
    (runFetch (initialFormState none) false "http://api" "sk"
        (FetchOutcome.response
          { ok := true, status := 200, statusText := "OK"
          , body := BodyResult.ok (DataField.arr [gpt4Raw]) })).availableModels
      = [gpt4Model] ∧
    (runFetch (initialFormState none) false "http://api" "sk"
        (FetchOutcome.response
          { ok := true, status := 200, statusText := "OK"
          , body := BodyResult.ok (DataField.arr [gpt4Raw]) })).selectedCustomModel
      = some gpt4Model := by
  have h := generic_payload_normalization (initialFormState none) false "http://api" "sk"
      { ok := true, status := 200, statusText := "OK"
      , body := BodyResult.ok (DataField.arr [gpt4Raw]) } [gpt4Raw] rfl rfl rfl rfl
  exact ⟨h.1.trans (by decide), (h.2.2 gpt4Raw [] rfl).trans (by decide)⟩

/-- C3: a manual attempt whose payload lacks a `data` field, or whose
`data` field is not an array, settles with the malformed-catalog error
message (the code's Failed presentation) while the credential store, the
available-models list, the selection and the step are all unchanged. -/
theorem malformed_payload_failure :
    ∀ (s : FormState) (captured : Bool) (apiBase apiKey : String) (r : HttpResponse),
      s.useStoredCredentials = false →
      apiBase.isEmpty = false → apiKey.isEmpty = false → r.ok = true →
      (r.body = BodyResult.ok DataField.absent ∨
        ∃ t : Bool, r.body = BodyResult.ok (DataField.other t)) →
      (runFetch s captured apiBase apiKey (FetchOutcome.response r)).connectionError
          = some malformedMsg ∧
      (runFetch s captured apiBase apiKey (FetchOutcome.response r)).storage = s.storage ∧
      (runFetch s captured apiBase apiKey (FetchOutcome.response r)).availableModels
          = s.availableModels ∧
      (runFetch s captured apiBase apiKey (FetchOutcome.response r)).selectedCustomModel
          = s.selectedCustomModel ∧
      (runFetch s captured apiBase apiKey (FetchOutcome.response r)).step = s.step := by
  intro s c b k r hus hb hk hok hbody
  rcases hbody with hbody | ⟨t, hbody⟩ <;>
    simp [runFetch, hb, hk, resolveAttempt, connectingState, hok, hbody]

/-- Witness for C3 at a concrete payload without a `data` field. -/
theorem malformed_payload_failure_witness :
    (runFetch (initialFormState none) false "http://api" "sk"
        (FetchOutcome.response
          { ok := true, status := 200, statusText := "OK"
          , body := BodyResult.ok DataField.absent })).connectionError
      = some malformedMsg ∧
    (runFetch (initialFormState none) false "http://api" "sk"
        (FetchOutcome.response
          { ok := true, status := 200, statusText := "OK"
          , body := BodyResult.ok DataField.absent })).storage
      = (initialFormState none).storage := by
  have h := malformed_payload_failure (initialFormState none) false "http://api" "sk"
      { ok := true, status := 200, statusText := "OK"
      , body := BodyResult.ok DataField.absent } rfl rfl rfl rfl (Or.inl rfl)
  exact ⟨h.1, h.2.1⟩

/-- C10: once an attempt that passed the non-empty guard settles — by any
outcome — the `finally` clause has reset `isConnecting` to false. -/
theorem connecting_flag_always_reset :
    ∀ (s : FormState) (captured : Bool) (apiBase apiKey : String) (o : FetchOutcome),
      apiBase.isEmpty = false → apiKey.isEmpty = false →
      (runFetch s captured apiBase apiKey o).isConnecting = false := by
  intro s c b k o hb hk
  simp [runFetch, hb, hk]

/-- Witness for C10 at a concrete network failure. -/
theorem connecting_flag_always_reset_witness :
    (runFetch (initialFormState none) false "http://api" "sk"
        (FetchOutcome.networkError "connection refused")).isConnecting = false :=
  connecting_flag_always_reset (initialFormState none) false "http://api" "sk"
    (FetchOutcome.networkError "connection refused") rfl rfl

/-- C1 code bug: with stored credentials and a discovery response of HTTP
401, the mount-initiated attempt resolves inside the first render's
closure, whose captured `useStoredCredentials` is false — the effect's
`setUseStoredCredentials(true)` never updates the captured constant — so
the line-128 invalidation branch is skipped: the store survives intact,
the error shown is the generic HTTP-failure message rather than the
distinguishing stored-credentials-invalid message, and the state flag is
never reset.  This contradicts the code's own line-127 comment ("If
stored credentials fail, clear them and show connect step") and the
claimed invalidation policy; the claim describes the intent, the code a
stale-closure slip. -/
theorem auto_reconnect_generic_error :
    (afterMount (some (StoredEntry.valid ⟨"http://e", "sk"⟩))
        (FetchOutcome.response
          { ok := false, status := 401, statusText := "Unauthorized"
          , body := BodyResult.ok DataField.absent })).storage
      = some (StoredEntry.valid ⟨"http://e", "sk"⟩) ∧
    (afterMount (some (StoredEntry.valid ⟨"http://e", "sk"⟩))
        (FetchOutcome.response
          { ok := false, status := 401, statusText := "Unauthorized"
          , body := BodyResult.ok DataField.absent })).connectionError
      = some (httpFailureMsg 401 "Unauthorized") ∧
    (afterMount (some (StoredEntry.valid ⟨"http://e", "sk"⟩))
        (FetchOutcome.response
          { ok := false, status := 401, statusText := "Unauthorized"
          , body := BodyResult.ok DataField.absent })).connectionError
      ≠ some invalidCredsMsg ∧
    (afterMount (some (StoredEntry.valid ⟨"http://e", "sk"⟩))
        (FetchOutcome.response
          { ok := false, status := 401, statusText := "Unauthorized"
          , body := BodyResult.ok DataField.absent })).useStoredCredentials = true ∧
    (afterMount (some (StoredEntry.valid ⟨"http://e", "sk"⟩))
        (FetchOutcome.response
          { ok := false, status := 401, statusText := "Unauthorized"
          , body := BodyResult.ok DataField.absent })).step = Step.connect :=
  ⟨by decide, by decide, by decide, by decide, by decide⟩

/-- C4 counterexample: with stored credentials whose key is the empty
string — at an endpoint the design document classifies LocalInference —
the auto-reconnect never proceeds: the mount guard issues no fetch and
leaves the state untouched, and a direct call with the empty key is a
validation failure that issues no fetch either. -/
theorem empty_stored_key_counterexample :
    classifyEndpointSpec "http://localhost:11434" = ProviderFamily.LocalInference ∧
    (mountEffect (initialFormState
        (some (StoredEntry.valid ⟨"http://localhost:11434", ""⟩)))).2 = none ∧
    (mountEffect (initialFormState
        (some (StoredEntry.valid ⟨"http://localhost:11434", ""⟩)))).1
      = initialFormState (some (StoredEntry.valid ⟨"http://localhost:11434", ""⟩)) ∧
    fetchIssues "http://localhost:11434" "" = none ∧
    (runFetch (initialFormState (some (StoredEntry.valid ⟨"http://localhost:11434", ""⟩)))
        false "http://localhost:11434" "" (FetchOutcome.networkError "unused")).connectionError
      = some validationMsg :=
  ⟨by decide, by decide, by decide, by decide, by decide⟩

/-- C4 amended: `requestConnect` requires a non-empty endpoint and a
non-empty key in every case — there is no LocalInference exception and an
auto-reconnect never proceeds with an empty stored value, since the mount
guard skips the fetch; a violating call issues no fetch and changes
nothing but the validation error message, while any call passing the guard
does issue the discovery fetch. -/
theorem connect_validation_guard :
    (∀ (s : FormState) (captured : Bool) (apiBase apiKey : String) (o : FetchOutcome),
      (apiBase.isEmpty = true ∨ apiKey.isEmpty = true) →
      fetchIssues apiBase apiKey = none ∧
      runFetch s captured apiBase apiKey o
        = { s with connectionError := some validationMsg }) ∧
    (∀ (st : Storage) (c : StoredCredentials),
      getStoredCredentials st = some c →
      (c.apiBase.isEmpty = true ∨ c.apiKey.isEmpty = true) →
      mountEffect (initialFormState st) = (initialFormState st, none)) ∧
    (∀ apiBase apiKey : String,
      apiBase.isEmpty = false → apiKey.isEmpty = false →
      fetchIssues apiBase apiKey = some (buildRequest apiBase apiKey)) := by
  refine ⟨?_, ?_, ?_⟩
  · intro s c b k o h
    have hcond : (b.isEmpty || k.isEmpty) = true := by
      rcases h with h | h <;> simp [h]
    exact ⟨by simp [fetchIssues, hcond], by simp [runFetch, hcond]⟩
  · intro st c hst h
    have hcond : (c.apiBase.isEmpty || c.apiKey.isEmpty) = true := by
      rcases h with h | h <;> simp [h]
    simp [mountEffect, initialFormState, hst, hcond]
  · intro b k hb hk
    simp [fetchIssues, hb, hk]

/-- Witness for the amended C4 at concrete empty and non-empty inputs. -/
theorem connect_validation_guard_witness :
    fetchIssues "" "sk" = none ∧
    runFetch (initialFormState none) false "" "sk" (FetchOutcome.networkError "x")
      = { initialFormState none with connectionError := some validationMsg } ∧
    mountEffect (initialFormState (some (StoredEntry.valid ⟨"http://e", ""⟩)))
      = (initialFormState (some (StoredEntry.valid ⟨"http://e", ""⟩)), none) ∧
    fetchIssues "http://e" "sk" = some (buildRequest "http://e" "sk") := by
  refine ⟨?_, ?_, ?_, ?_⟩
  · exact ((connect_validation_guard).1 (initialFormState none) false "" "sk"
      (FetchOutcome.networkError "x") (Or.inl rfl)).1
  · exact ((connect_validation_guard).1 (initialFormState none) false "" "sk"
      (FetchOutcome.networkError "x") (Or.inl rfl)).2
  · exact (connect_validation_guard).2.1
      (some (StoredEntry.valid ⟨"http://e", ""⟩)) ⟨"http://e", ""⟩ rfl (Or.inr rfl)
  · exact (connect_validation_guard).2.2 "http://e" "sk" rfl rfl

/-- C7 code bug: a stored-credentials (auto-reconnect) success runs the
same first-render closure with captured `useStoredCredentials = false`, so
the suppression guard at lines 157-158 never applies to it: the success
indicator is shown and the 3000 ms one-shot timeout armed on an
auto-reconnect success, contradicting the code's own line-157 comment
("Only show success message if not using stored credentials (to avoid
showing it automatically)") and the claim's never-arms clause; the claim
describes the intent, the code a stale-closure slip. -/
theorem auto_reconnect_success_arms_indicator :
    (afterMount (some (StoredEntry.valid ⟨"http://e", "sk"⟩))
        (FetchOutcome.response
          { ok := true, status := 200, statusText := "OK"
          , body := BodyResult.ok (DataField.arr [gpt4Raw]) })).showSuccessMessage = true ∧
    (afterMount (some (StoredEntry.valid ⟨"http://e", "sk"⟩))
        (FetchOutcome.response
          { ok := true, status := 200, statusText := "OK"
          , body := BodyResult.ok (DataField.arr [gpt4Raw]) })).successTimeoutRef
      = some successMessageDelayMs ∧
    (afterMount (some (StoredEntry.valid ⟨"http://e", "sk"⟩))
        (FetchOutcome.response
          { ok := true, status := 200, statusText := "OK"
          , body := BodyResult.ok (DataField.arr [gpt4Raw]) })).step = Step.selectModel :=
  ⟨by decide, by decide, by decide⟩

/-- C9 counterexample: in a Connected-step state whose catalog holds two
models sharing a title, selecting the second member moves the selection to
the first member, not to the chosen one — membership matching by id or
title picks the first match. -/
theorem select_first_match_counterexample :
    dupState.step = Step.selectModel ∧
    dupB ∈ dupState.availableModels ∧
    dupA ≠ dupB ∧
    (selectModelEvent dupState dupB).selectedCustomModel = some dupA ∧
    (selectModelEvent dupState dupB).selectedCustomModel ≠ some dupB :=
  ⟨by decide, by decide, by decide, by decide, by decide⟩

/-- C9 amended: a descriptor matching no catalog member by id or title is
rejected as a complete no-op; otherwise the selection becomes the first
catalog member matching the descriptor by id or title — in particular some
catalog member is always selected when the descriptor itself is a member,
though it is the given member only when no earlier member shares its id or
title. -/
theorem select_model_resolution :
    (∀ (s : FormState) (val : Model),
      (∀ m ∈ s.availableModels, m.id ≠ val.id ∧ m.title ≠ val.title) →
      selectModelEvent s val = s) ∧
    (∀ (s : FormState) (val m : Model),
      s.availableModels.find? (fun mm => mm.id == val.id || mm.title == val.title)
          = some m →
      (selectModelEvent s val).selectedCustomModel = some m ∧
        m ∈ s.availableModels) ∧
    (∀ (s : FormState) (val : Model), val ∈ s.availableModels →
      ∃ m, (selectModelEvent s val).selectedCustomModel = some m ∧
        m ∈ s.availableModels ∧ (m.id = val.id ∨ m.title = val.title)) := by
  refine ⟨?_, ?_, ?_⟩
  · intro s val h
    have hf : s.availableModels.find?
        (fun mm => mm.id == val.id || mm.title == val.title) = none := by
      rw [List.find?_eq_none]
      intro m hm
      have hne := h m hm
      simp [hne.1, hne.2]
    simp [selectModelEvent, hf]
  · intro s val m hf
    exact ⟨by simp [selectModelEvent, hf], List.mem_of_find?_eq_some hf⟩
  · intro s val hval
    have hsome : (s.availableModels.find?
        (fun mm => mm.id == val.id || mm.title == val.title)).isSome := by
      rw [List.find?_isSome]
      exact ⟨val, hval, by simp⟩
    obtain ⟨m, hf⟩ := Option.isSome_iff_exists.mp hsome
    have hp := List.find?_some hf
    simp only [Bool.or_eq_true, beq_iff_eq] at hp
    exact ⟨m, by simp [selectModelEvent, hf], List.mem_of_find?_eq_some hf, hp⟩

/-- Witness for the amended C9: a foreign descriptor is a no-op, and a
member with a unique id selects itself. -/
theorem select_model_resolution_witness :
    selectModelEvent dupState
        { id := "z", title := "zz", object := none, created := none, owned_by := none }
      = dupState ∧
    (selectModelEvent dupState dupA).selectedCustomModel = some dupA := by
  constructor
  · exact (select_model_resolution).1 dupState
      { id := "z", title := "zz", object := none, created := none, owned_by := none }
      (by decide)
  · exact ((select_model_resolution).2.1 dupState dupA dupA (by decide)).1

/-- C6 amended: the code performs no endpoint classification — every
endpoint string, marker-bearing or not, receives the GenericCompatible
treatment: classification is the constant GenericCompatible function
(trivially total, side-effect-free and error-free), and the issued request
uses the `/models` path with a Bearer header regardless of the URL. -/
theorem classification_is_constant :
    ∀ url apiKey : String,
      classifyEndpoint url = ProviderFamily.GenericCompatible ∧
      (buildRequest url apiKey).url = buildModelsUrl url ∧
      (buildRequest url apiKey).authorization = some ("Bearer " ++ apiKey) ∧
      (buildRequest url apiKey).contentType = "application/json" :=
  fun _ _ => ⟨rfl, rfl, rfl, rfl⟩

end NeoCode
